import Mathlib

/-!
Shallow embedding of the `dlc-manager` sub-channel module of `rust-dlc`
(`src/dlc-manager/src/subchannel/mod.rs`), together with the parts of its
environment the module reads: the SHA-256 hash used by
`generate_temporary_channel_id`, the fields of the Lightning
`ChannelDetails` structure the module copies, and the error mapping of
`force_close_channel`.  Machine integers are embedded as `Nat` with
explicit reduction modulo `2 ^ w`; byte strings are `List Nat` whose
elements are kept below 256 by construction.
-/

namespace Dlc

/-! ## Bytes and 32-bit words -/

/-- Reduce a natural number to a 32-bit word. -/
def u32 (x : Nat) : Nat := x % 2 ^ 32

/-- Right rotation of a 32-bit word by `n` bits. -/
def rotr32 (n x : Nat) : Nat := ((x >>> n) ||| (x <<< (32 - n))) % 2 ^ 32

/-- Big-endian bytes of a 16-bit value (`u16::to_be_bytes`). -/
def u16beBytes (x : Nat) : List Nat := [(x >>> 8) % 256, x % 256]

/-- Big-endian bytes of a 64-bit value (`u64::to_be_bytes`). -/
def u64beBytes (x : Nat) : List Nat :=
  [(x >>> 56) % 256, (x >>> 48) % 256, (x >>> 40) % 256, (x >>> 32) % 256,
   (x >>> 24) % 256, (x >>> 16) % 256, (x >>> 8) % 256, x % 256]

/-- Big-endian bytes of a 32-bit word. -/
def word32beBytes (w : Nat) : List Nat :=
  [(w >>> 24) % 256, (w >>> 16) % 256, (w >>> 8) % 256, w % 256]

/-! ## SHA-256 (FIPS 180-4), the hash behind `bitcoin::hashes::sha256` -/

/-- SHA-256 choice function. -/
def shaCh (x y z : Nat) : Nat := (x &&& y) ^^^ ((x ^^^ 0xffffffff) &&& z)

/-- SHA-256 majority function. -/
def shaMaj (x y z : Nat) : Nat := (x &&& y) ^^^ (x &&& z) ^^^ (y &&& z)

/-- SHA-256 Σ₀. -/
def bigSigma0 (x : Nat) : Nat := rotr32 2 x ^^^ rotr32 13 x ^^^ rotr32 22 x

/-- SHA-256 Σ₁. -/
def bigSigma1 (x : Nat) : Nat := rotr32 6 x ^^^ rotr32 11 x ^^^ rotr32 25 x

/-- SHA-256 σ₀. -/
def smallSigma0 (x : Nat) : Nat := rotr32 7 x ^^^ rotr32 18 x ^^^ (x >>> 3)

/-- SHA-256 σ₁. -/
def smallSigma1 (x : Nat) : Nat := rotr32 17 x ^^^ rotr32 19 x ^^^ (x >>> 10)

/-- The 64 SHA-256 round constants (decimal). -/
def shaK : List Nat :=
  [1116352408, 1899447441, 3049323471, 3921009573, 961987163, 1508970993,
   2453635748, 2870763221, 3624381080, 310598401, 607225278, 1426881987,
   1925078388, 2162078206, 2614888103, 3248222580, 3835390401, 4022224774,
   264347078, 604807628, 770255983, 1249150122, 1555081692, 1996064986,
   2554220882, 2821834349, 2952996808, 3210313671, 3336571891, 3584528711,
   113926993, 338241895, 666307205, 773529912, 1294757372, 1396182291,
   1695183700, 1986661051, 2177026350, 2456956037, 2730485921, 2820302411,
   3259730800, 3345764771, 3516065817, 3600352804, 4094571909, 275423344,
   430227734, 506948616, 659060556, 883997877, 958139571, 1322822218,
   1537002063, 1747873779, 1955562222, 2024104815, 2227730452, 2361852424,
   2428436474, 2756734187, 3204031479, 3329325298]

/-- The eight 32-bit working variables of the SHA-256 compression function. -/
structure Sha256State where
  a : Nat
  b : Nat
  c : Nat
  d : Nat
  e : Nat
  f : Nat
  g : Nat
  h : Nat
  deriving Repr, DecidableEq

/-- The SHA-256 initial hash value (decimal). -/
def shaInit : Sha256State :=
  ⟨1779033703, 3144134277, 1013904242, 2773480762,
   1359893119, 2600822924, 528734635, 1541459225⟩

/-- Pack four bytes into one big-endian 32-bit word. -/
def bytesToWord (b0 b1 b2 b3 : Nat) : Nat :=
  ((b0 % 256) <<< 24) ||| ((b1 % 256) <<< 16) ||| ((b2 % 256) <<< 8) ||| (b3 % 256)

/-- Split a 64-byte block into its sixteen big-endian 32-bit words. -/
def blockWords : List Nat → List Nat
  | b0 :: b1 :: b2 :: b3 :: rest => bytesToWord b0 b1 b2 b3 :: blockWords rest
  | _ => []

/-- Append `n` further words of the SHA-256 message schedule. -/
def extendWords (ws : List Nat) : Nat → List Nat
  | 0 => ws
  | n + 1 =>
    let prev := extendWords ws n
    let t := prev.length
    prev ++ [u32 (smallSigma1 (prev.getD (t - 2) 0) + prev.getD (t - 7) 0 +
      smallSigma0 (prev.getD (t - 15) 0) + prev.getD (t - 16) 0)]

/-- The full 64-word SHA-256 message schedule of one block. -/
def messageSchedule (ws : List Nat) : List Nat := extendWords ws 48

/-- One round of the SHA-256 compression function. -/
def compressRound (st : Sha256State) (k w : Nat) : Sha256State :=
  let t1 := u32 (st.h + bigSigma1 st.e + shaCh st.e st.f st.g + k + w)
  let t2 := u32 (bigSigma0 st.a + shaMaj st.a st.b st.c)
  ⟨u32 (t1 + t2), st.a, st.b, st.c, u32 (st.d + t1), st.e, st.f, st.g⟩

/-- Compress one 64-byte block into the running hash state. -/
def compressBlock (st : Sha256State) (block : List Nat) : Sha256State :=
  let ws := messageSchedule (blockWords block)
  let r := (shaK.zip ws).foldl (fun s p => compressRound s p.1 p.2) st
  ⟨u32 (st.a + r.a), u32 (st.b + r.b), u32 (st.c + r.c), u32 (st.d + r.d),
   u32 (st.e + r.e), u32 (st.f + r.f), u32 (st.g + r.g), u32 (st.h + r.h)⟩

/-- SHA-256 padding: a 0x80 byte, zeros to 56 mod 64, then the bit length
as eight big-endian bytes. -/
def padMessage (msg : List Nat) : List Nat :=
  msg ++ [0x80] ++ List.replicate ((119 - (msg.length % 64)) % 64) 0 ++
    u64beBytes (8 * msg.length)

/-- Cut a byte string into 64-byte blocks, with fuel for structural
recursion; the fuel is set to the list length, which always suffices. -/
def chunks64Go : Nat → List Nat → List (List Nat)
  | 0, _ => []
  | _, [] => []
  | fuel + 1, l => l.take 64 :: chunks64Go fuel (l.drop 64)

/-- Cut a byte string into 64-byte blocks. -/
def chunks64 (l : List Nat) : List (List Nat) := chunks64Go l.length l

/-- Serialize the hash state as 32 big-endian digest bytes. -/
def stateBytes (s : Sha256State) : List Nat :=
  word32beBytes s.a ++ word32beBytes s.b ++ word32beBytes s.c ++ word32beBytes s.d ++
    word32beBytes s.e ++ word32beBytes s.f ++ word32beBytes s.g ++ word32beBytes s.h

/-- SHA-256 of a byte string, as 32 digest bytes. -/
def sha256 (msg : List Nat) : List Nat :=
  stateBytes ((chunks64 (padMessage msg)).foldl compressBlock shaInit)

/-! ## Domain types

Identifiers are 32-byte strings; cryptographic artifacts produced by
external collaborators (keys, signatures) are opaque to this module and
are embedded as wrappers around `Nat`.  Transactions are opaque values
with a stable transaction id (spec section 3). -/

/-- A 32-byte channel identifier. -/
abbrev ChannelId : Type := List Nat

/-- A 32-byte contract identifier. -/
abbrev ContractId : Type := List Nat

/-- A 32-byte transaction identifier. -/
abbrev Txid : Type := List Nat

/-- A secp256k1 public key, opaque to the sub-channel module. -/
structure PublicKey where
  val : Nat
  deriving Repr, DecidableEq

/-- A secp256k1 secret key, opaque to the sub-channel module. -/
structure SecretKey where
  val : Nat
  deriving Repr, DecidableEq

/-- An ECDSA signature, opaque to the sub-channel module. -/
structure Signature where
  val : Nat
  deriving Repr, DecidableEq

/-- An ECDSA adaptor signature, opaque to the sub-channel module. -/
structure EcdsaAdaptorSignature where
  val : Nat
  deriving Repr, DecidableEq

/-- A Bitcoin transaction: an opaque artifact with a stable txid
(the module never reconstructs transaction internals). -/
structure Transaction where
  txid : Txid
  deriving DecidableEq

/-- The split transaction artifact from the `dlc` crate; the sub-channel
module only reads its inner transaction. -/
structure SplitTx where
  transaction : Transaction
  deriving DecidableEq

/-- A transaction outpoint (`lightning::chain::transaction::OutPoint`). -/
structure OutPoint where
  txid : Txid
  index : Nat
  deriving DecidableEq

/-- Base points used to derive revocation keys for the split transaction
(`crate::channel::party_points::PartyBasePoints`); opaque here, only its
presence is read by this module. -/
structure PartyBasePoints where
  val : Nat
  deriving Repr, DecidableEq

/-- The append-only store of counterparty revocation secrets
(`lightning::ln::chan_utils::CounterpartyCommitmentSecrets`); opaque here. -/
structure CounterpartyCommitmentSecrets where
  entries : List (Nat × Nat)
  deriving DecidableEq

/-- Information used to facilitate the rollback of a channel split. -/
structure LnRollBackInfo where
  channel_value_satoshis : Nat
  value_to_self_msat : Nat
  funding_outpoint : OutPoint
  deriving DecidableEq

/-- The fields of `lightning::ln::channelmanager::ChannelDetails` that the
sub-channel module reads (the Lightning type carries further fields the
module never touches). -/
structure ChannelDetails where
  channel_id : ChannelId
  channel_value_satoshis : Nat
  balance_msat : Nat
  funding_txo : Option OutPoint
  deriving DecidableEq

/-! ## Identifier derivation -/

/-- `generate_temporary_channel_id`: hash of the channel id, the
big-endian 8-byte update index, and the single-byte channel index. -/
def generate_temporary_channel_id (channel_id : ChannelId) (split_update_idx : Nat)
    (channel_index : Fin 256) : ContractId :=
  sha256 (channel_id ++ u64beBytes split_update_idx ++ [channel_index.val])

/-- Modelled from the spec: `crate::utils::compute_id` is code of this
repository that is not under `src/`.  The spec (section 4.1) states only
that it deterministically combines the split transaction's id, a 1-based
output index, and the temporary channel id into a 32-byte id; it is
modelled here as a hash over the concatenation of the three. -/
def compute_id (split_txid : Txid) (output_index : Nat)
    (temporary_channel_id : ChannelId) : ChannelId :=
  sha256 (split_txid ++ u16beBytes output_index ++ temporary_channel_id)

/-! ## State payloads -/

/-- Payload of the `Offered` state. -/
structure OfferedSubChannel where
  per_split_point : PublicKey
  deriving DecidableEq

/-- Payload of the `Accepted` state. -/
structure AcceptedSubChannel where
  offer_per_split_point : PublicKey
  accept_per_split_point : PublicKey
  split_tx : SplitTx
  ln_glue_transaction : Transaction
  ln_rollback : LnRollBackInfo
  commitment_transactions : List Transaction
  deriving DecidableEq

/-- Payload of the `Confirmed` state. -/
structure ConfirmedSubChannel where
  own_per_split_point : PublicKey
  counter_per_split_point : PublicKey
  own_split_adaptor_signature : EcdsaAdaptorSignature
  split_tx : SplitTx
  ln_glue_transaction : Transaction
  counter_glue_signature : Signature
  prev_commitment_secret : SecretKey
  next_per_commitment_point : PublicKey
  ln_rollback : LnRollBackInfo
  commitment_transactions : List Transaction
  deriving DecidableEq

/-- Payload of the `Signed` and `Finalized` states. -/
structure SignedSubChannel where
  own_per_split_point : PublicKey
  counter_per_split_point : PublicKey
  own_split_adaptor_signature : EcdsaAdaptorSignature
  counter_split_adaptor_signature : EcdsaAdaptorSignature
  split_tx : SplitTx
  ln_glue_transaction : Transaction
  counter_glue_signature : Signature
  ln_rollback : LnRollBackInfo
  deriving DecidableEq

/-- Payload of the `CloseOffered` state. -/
structure CloseOfferedSubChannel where
  signed_subchannel : SignedSubChannel
  offer_balance : Nat
  accept_balance : Nat
  is_offer : Bool
  deriving DecidableEq

/-- Payload of the `CloseAccepted` state. -/
structure CloseAcceptedSubChannel where
  signed_subchannel : SignedSubChannel
  own_balance : Nat
  counter_balance : Nat
  ln_rollback : LnRollBackInfo
  deriving DecidableEq

/-- Payload of the `CloseConfirmed` state. -/
structure CloseConfirmedSubChannel where
  signed_subchannel : SignedSubChannel
  own_balance : Nat
  counter_balance : Nat
  ln_rollback : LnRollBackInfo
  check_ln_secret : Bool
  deriving DecidableEq

/-- Payload of the `Closing` state. -/
structure ClosingSubChannel where
  signed_sub_channel : SignedSubChannel
  is_initiator : Bool
  deriving DecidableEq

/-! ## The sub-channel state machine -/

/-- The state of a `SubChannel`. -/
inductive SubChannelState where
  | Offered (v : OfferedSubChannel)
  | Accepted (v : AcceptedSubChannel)
  | Confirmed (v : ConfirmedSubChannel)
  | Finalized (v : SignedSubChannel)
  | Signed (v : SignedSubChannel)
  | Closing (v : ClosingSubChannel)
  | OnChainClosed
  | CounterOnChainClosed
  | CloseOffered (v : CloseOfferedSubChannel)
  | CloseAccepted (v : CloseAcceptedSubChannel)
  | CloseConfirmed (v : CloseConfirmedSubChannel)
  | OffChainClosed
  | ClosedPunished (txid : Txid)
  | Rejected
  deriving DecidableEq

/-- A DLC channel embedded within a Lightning Network channel. -/
structure SubChannel where
  channel_id : ChannelId
  counter_party : PublicKey
  update_idx : Nat
  state : SubChannelState
  per_split_seed : Option PublicKey
  fee_rate_per_vb : Nat
  own_base_points : PartyBasePoints
  counter_base_points : Option PartyBasePoints
  fund_value_satoshis : Nat
  original_funding_redeemscript : List Nat
  is_offer : Bool
  own_fund_pk : PublicKey
  counter_fund_pk : PublicKey
  counter_party_secrets : CounterpartyCommitmentSecrets

/-- `AcceptedSubChannel::get_dlc_channel_id`. -/
def AcceptedSubChannel.get_dlc_channel_id (a : AcceptedSubChannel)
    (temporary_channel_id : ChannelId) (channel_idx : Fin 256) : ChannelId :=
  compute_id a.split_tx.transaction.txid (channel_idx.val + 1) temporary_channel_id

/-- `ConfirmedSubChannel::get_dlc_channel_id`. -/
def ConfirmedSubChannel.get_dlc_channel_id (c : ConfirmedSubChannel)
    (temporary_channel_id : ChannelId) (channel_idx : Fin 256) : ChannelId :=
  compute_id c.split_tx.transaction.txid (channel_idx.val + 1) temporary_channel_id

/-- `SignedSubChannel::get_dlc_channel_id`. -/
def SignedSubChannel.get_dlc_channel_id (s : SignedSubChannel)
    (temporary_channel_id : ChannelId) (channel_idx : Fin 256) : ChannelId :=
  compute_id s.split_tx.transaction.txid (channel_idx.val + 1) temporary_channel_id

/-- `SubChannel::get_dlc_channel_id`: the id of the DLC channel at the
given index if the state admits one. -/
def SubChannel.get_dlc_channel_id (sc : SubChannel) (index : Fin 256) :
    Option ChannelId :=
  let temporary_channel_id :=
    generate_temporary_channel_id sc.channel_id sc.update_idx index
  match sc.state with
  | SubChannelState.Offered _ => some temporary_channel_id
  | SubChannelState.Accepted a =>
      some (a.get_dlc_channel_id temporary_channel_id index)
  | SubChannelState.Confirmed s =>
      some (s.get_dlc_channel_id temporary_channel_id index)
  | SubChannelState.Signed s =>
      some (s.get_dlc_channel_id temporary_channel_id index)
  | SubChannelState.Finalized s =>
      some (s.get_dlc_channel_id temporary_channel_id index)
  | SubChannelState.Closing c =>
      some (c.signed_sub_channel.get_dlc_channel_id temporary_channel_id index)
  | SubChannelState.CloseOffered c =>
      some (c.signed_subchannel.get_dlc_channel_id temporary_channel_id index)
  | SubChannelState.CloseAccepted c =>
      some (c.signed_subchannel.get_dlc_channel_id temporary_channel_id index)
  | SubChannelState.CloseConfirmed c =>
      some (c.signed_subchannel.get_dlc_channel_id temporary_channel_id index)
  | _ => none

/-! ## Reestablishment mapping -/

/-- The `ReestablishFlag` enumeration. -/
inductive ReestablishFlag where
  | Offered
  | Accepted
  | Confirmed
  | Finalized
  | Signed
  | CloseOffered
  | CloseAccepted
  | CloseConfirmed
  | OffChainClosed
  deriving DecidableEq

/-- The `u8` discriminant of a `ReestablishFlag` (its `repr(u8)` value). -/
def ReestablishFlag.toU8 : ReestablishFlag → Nat
  | ReestablishFlag.Offered => 1
  | ReestablishFlag.Accepted => 2
  | ReestablishFlag.Confirmed => 3
  | ReestablishFlag.Finalized => 4
  | ReestablishFlag.Signed => 5
  | ReestablishFlag.CloseOffered => 6
  | ReestablishFlag.CloseAccepted => 7
  | ReestablishFlag.CloseConfirmed => 8
  | ReestablishFlag.OffChainClosed => 9

/-- `SubChannel::get_reestablish_flag`. -/
def SubChannel.get_reestablish_flag (sc : SubChannel) : Option Nat :=
  match sc.state with
  | SubChannelState.Offered _ => some ReestablishFlag.Offered.toU8
  | SubChannelState.Accepted _ => some ReestablishFlag.Accepted.toU8
  | SubChannelState.Confirmed _ => some ReestablishFlag.Confirmed.toU8
  | SubChannelState.Finalized _ => some ReestablishFlag.Finalized.toU8
  | SubChannelState.Signed _ => some ReestablishFlag.Signed.toU8
  | SubChannelState.CloseOffered _ => some ReestablishFlag.CloseOffered.toU8
  | SubChannelState.CloseAccepted _ => some ReestablishFlag.CloseAccepted.toU8
  | SubChannelState.CloseConfirmed _ => some ReestablishFlag.CloseConfirmed.toU8
  | SubChannelState.OffChainClosed => some ReestablishFlag.OffChainClosed.toU8
  | _ => none

/-- Spec-side table (section 4.3 of the spec, quoted by claim C2): the
flag each state variant should map to, written directly from the claim's
words for comparison with `SubChannel.get_reestablish_flag`. -/
def reestablishFlagSpec : SubChannelState → Option Nat
  | SubChannelState.Offered _ => some 1
  | SubChannelState.Accepted _ => some 2
  | SubChannelState.Confirmed _ => some 3
  | SubChannelState.Finalized _ => some 4
  | SubChannelState.Signed _ => some 5
  | SubChannelState.CloseOffered _ => some 6
  | SubChannelState.CloseAccepted _ => some 7
  | SubChannelState.CloseConfirmed _ => some 8
  | SubChannelState.OffChainClosed => some 9
  | SubChannelState.Closing _ => none
  | SubChannelState.OnChainClosed => none
  | SubChannelState.CounterOnChainClosed => none
  | SubChannelState.ClosedPunished _ => none
  | SubChannelState.Rejected => none

/-! ## Rollback snapshot construction -/

/-- `From<&ChannelDetails> for LnRollBackInfo`: the Rust construction
calls `.expect` on `funding_txo`, so a missing funding outpoint aborts;
the abort is embedded as `none`. -/
def LnRollBackInfo.fromChannelDetails (value : ChannelDetails) :
    Option LnRollBackInfo :=
  match value.funding_txo with
  | some o => some ⟨value.channel_value_satoshis, value.balance_msat, o⟩
  | none => none

/-! ## Channel-manager capability interface -/

/-- An error from the Lightning channel manager
(`lightning::util::errors::APIError`), opaque here apart from its debug
description. -/
structure APIError where
  description : String
  deriving DecidableEq

/-- The debug rendering of an `APIError` used by the error mapping. -/
def describeApiError (e : APIError) : String := e.description

/-- The `dlc-manager` error type; the sub-channel module's force-close
path only builds the `InvalidParameters` variant. -/
inductive Error where
  | InvalidParameters (msg : String)
  deriving DecidableEq

/-- `LNChannelManager::force_close_channel` for `ChannelManager`: the
underlying `force_close_broadcasting_latest_txn` result, supplied by the
Lightning stack, is mapped with `map_err` into a generic
`Error::InvalidParameters` wrapping the cause's description. -/
def force_close_channel (underlying : Except APIError Unit) : Except Error Unit :=
  underlying.mapError (fun e => Error.InvalidParameters (describeApiError e))

/-- `LNChannelManager::get_channel_details` for `ChannelManager`: scan
the channel list and return a copy of the first channel whose id matches. -/
def get_channel_details (channels : List ChannelDetails) (channel_id : ChannelId) :
    Option ChannelDetails :=
  channels.find? (fun x => decide (x.channel_id = channel_id))

/-! ## Concrete sample values (used by witness theorems) -/

/-- A sample funding outpoint. -/
def sampleOutPoint : OutPoint := ⟨List.replicate 32 7, 0⟩

/-- A sample rollback snapshot. -/
def sampleRollback : LnRollBackInfo := ⟨100000, 50000000, sampleOutPoint⟩

/-- A sample split transaction. -/
def sampleSplitTx : SplitTx := ⟨⟨List.replicate 32 9⟩⟩

/-- A sample `Offered` payload. -/
def sampleOffered : OfferedSubChannel := ⟨⟨1⟩⟩

/-- A sample `Accepted` payload. -/
def sampleAccepted : AcceptedSubChannel :=
  ⟨⟨1⟩, ⟨2⟩, sampleSplitTx, ⟨List.replicate 32 8⟩, sampleRollback, []⟩

/-- A sample signed payload. -/
def sampleSigned : SignedSubChannel :=
  ⟨⟨1⟩, ⟨2⟩, ⟨3⟩, ⟨4⟩, sampleSplitTx, ⟨List.replicate 32 8⟩, ⟨5⟩, sampleRollback⟩

/-- A sample `Closing` payload. -/
def sampleClosing : ClosingSubChannel := ⟨sampleSigned, true⟩

/-- A sample sub-channel carrying the given state. -/
def mkSubChannel (st : SubChannelState) : SubChannel :=
  ⟨List.replicate 32 1, ⟨6⟩, 3, st, none, 2, ⟨0⟩, none, 100000, [], true,
   ⟨10⟩, ⟨11⟩, ⟨[]⟩⟩

/-- A sample `ChannelDetails` with a funding outpoint. -/
def sampleDetails : ChannelDetails :=
  ⟨List.replicate 32 2, 100000, 50000000, some sampleOutPoint⟩

/-- A sample `ChannelDetails` without a funding outpoint. -/
def sampleDetailsNoTxo : ChannelDetails := ⟨List.replicate 32 3, 1000, 2000, none⟩

/-! ## Facts about the hash -/

/-- Every SHA-256 digest is exactly 32 bytes. -/
theorem sha256_length (msg : List Nat) : (sha256 msg).length = 32 := by
  simp [sha256, stateBytes, word32beBytes]

/-- FIPS 180-4 test vector: the digest of the empty message
(bytes in decimal). -/
theorem sha256_empty_vector :
    sha256 [] =
      [227, 176, 196, 66, 152, 252, 28, 20, 154, 251, 244, 200, 153, 111,
       185, 36, 39, 174, 65, 228, 100, 155, 147, 76, 164, 149, 153, 27,
       120, 82, 184, 85] := by decide

/-- FIPS 180-4 test vector: the digest of the three bytes of the string
abc (bytes in decimal). -/
theorem sha256_abc_vector :
    sha256 [97, 98, 99] =
      [186, 120, 22, 191, 143, 1, 207, 234, 65, 65, 64, 222, 93, 174, 34,
       35, 176, 3, 97, 163, 150, 23, 122, 156, 180, 16, 255, 97, 242, 0,
       21, 173] := by decide

/-! ## Claim theorems -/

/-- C1: for every sub-channel whose state is Accepted, Confirmed, Signed or
Finalized and every index `i`, `get_dlc_channel_id` returns `some` of
`compute_id` applied to that state's split transaction txid, the 1-based
output index `i + 1`, and the temporary id generated from the sub-channel's
channel id and current update index. -/
theorem get_dlc_channel_id_post_split (sc : SubChannel) (i : Fin 256) :
    (∀ a, sc.state = SubChannelState.Accepted a →
      sc.get_dlc_channel_id i = some (compute_id a.split_tx.transaction.txid
        (i.val + 1) (generate_temporary_channel_id sc.channel_id sc.update_idx i))) ∧
    (∀ c, sc.state = SubChannelState.Confirmed c →
      sc.get_dlc_channel_id i = some (compute_id c.split_tx.transaction.txid
        (i.val + 1) (generate_temporary_channel_id sc.channel_id sc.update_idx i))) ∧
    (∀ s, sc.state = SubChannelState.Signed s →
      sc.get_dlc_channel_id i = some (compute_id s.split_tx.transaction.txid
        (i.val + 1) (generate_temporary_channel_id sc.channel_id sc.update_idx i))) ∧
    (∀ s, sc.state = SubChannelState.Finalized s →
      sc.get_dlc_channel_id i = some (compute_id s.split_tx.transaction.txid
        (i.val + 1) (generate_temporary_channel_id sc.channel_id sc.update_idx i))) := by
  refine ⟨fun a h => ?_, fun c h => ?_, fun s h => ?_, fun s h => ?_⟩ <;>
    simp [SubChannel.get_dlc_channel_id, h, AcceptedSubChannel.get_dlc_channel_id,
      ConfirmedSubChannel.get_dlc_channel_id, SignedSubChannel.get_dlc_channel_id]

/-- Witness for C1 at a concrete accepted sub-channel and index 0. -/
theorem get_dlc_channel_id_post_split_witness :
    (mkSubChannel (SubChannelState.Accepted sampleAccepted)).get_dlc_channel_id 0 =
      some (compute_id sampleAccepted.split_tx.transaction.txid ((0 : Fin 256).val + 1)
        (generate_temporary_channel_id
          (mkSubChannel (SubChannelState.Accepted sampleAccepted)).channel_id
          (mkSubChannel (SubChannelState.Accepted sampleAccepted)).update_idx 0)) :=
  (get_dlc_channel_id_post_split (mkSubChannel (SubChannelState.Accepted sampleAccepted)) 0).1
    sampleAccepted rfl

/-- C2: `get_reestablish_flag` realises exactly the spec's table: flags 1-9
for the nine live states and `none` for the five remaining states. -/
theorem get_reestablish_flag_matches_spec_table (sc : SubChannel) :
    sc.get_reestablish_flag = reestablishFlagSpec sc.state := by
  cases h : sc.state <;>
    simp [SubChannel.get_reestablish_flag, reestablishFlagSpec, h, ReestablishFlag.toU8]

/-- C3: for every sub-channel in the Offered state and every index `i`,
`get_dlc_channel_id` returns exactly the temporary id generated from the
channel id, the current update index, and `i`. -/
theorem get_dlc_channel_id_offered (sc : SubChannel) (i : Fin 256)
    (o : OfferedSubChannel) (h : sc.state = SubChannelState.Offered o) :
    sc.get_dlc_channel_id i =
      some (generate_temporary_channel_id sc.channel_id sc.update_idx i) := by
  simp [SubChannel.get_dlc_channel_id, h]

/-- Witness for C3 at a concrete offered sub-channel and index 0. -/
theorem get_dlc_channel_id_offered_witness :
    (mkSubChannel (SubChannelState.Offered sampleOffered)).get_dlc_channel_id 0 =
      some (generate_temporary_channel_id
        (mkSubChannel (SubChannelState.Offered sampleOffered)).channel_id
        (mkSubChannel (SubChannelState.Offered sampleOffered)).update_idx 0) :=
  get_dlc_channel_id_offered (mkSubChannel (SubChannelState.Offered sampleOffered)) 0
    sampleOffered rfl

/-- C4: in the Closing, CloseOffered, CloseAccepted and CloseConfirmed
states, `get_dlc_channel_id` returns `some` of the post-split id derived
from the nested signed sub-channel payload's split transaction; in the
OnChainClosed, CounterOnChainClosed, OffChainClosed, ClosedPunished and
Rejected states it returns `none` for every index. -/
theorem get_dlc_channel_id_closing_and_terminal (sc : SubChannel) (i : Fin 256) :
    (∀ c, sc.state = SubChannelState.Closing c →
      sc.get_dlc_channel_id i = some (c.signed_sub_channel.get_dlc_channel_id
        (generate_temporary_channel_id sc.channel_id sc.update_idx i) i)) ∧
    (∀ c, sc.state = SubChannelState.CloseOffered c →
      sc.get_dlc_channel_id i = some (c.signed_subchannel.get_dlc_channel_id
        (generate_temporary_channel_id sc.channel_id sc.update_idx i) i)) ∧
    (∀ c, sc.state = SubChannelState.CloseAccepted c →
      sc.get_dlc_channel_id i = some (c.signed_subchannel.get_dlc_channel_id
        (generate_temporary_channel_id sc.channel_id sc.update_idx i) i)) ∧
    (∀ c, sc.state = SubChannelState.CloseConfirmed c →
      sc.get_dlc_channel_id i = some (c.signed_subchannel.get_dlc_channel_id
        (generate_temporary_channel_id sc.channel_id sc.update_idx i) i)) ∧
    (sc.state = SubChannelState.OnChainClosed → sc.get_dlc_channel_id i = none) ∧
    (sc.state = SubChannelState.CounterOnChainClosed → sc.get_dlc_channel_id i = none) ∧
    (sc.state = SubChannelState.OffChainClosed → sc.get_dlc_channel_id i = none) ∧
    (∀ t, sc.state = SubChannelState.ClosedPunished t → sc.get_dlc_channel_id i = none) ∧
    (sc.state = SubChannelState.Rejected → sc.get_dlc_channel_id i = none) := by
  refine ⟨fun c h => ?_, fun c h => ?_, fun c h => ?_, fun c h => ?_,
    fun h => ?_, fun h => ?_, fun h => ?_, fun t h => ?_, fun h => ?_⟩ <;>
    simp [SubChannel.get_dlc_channel_id, h]

/-- Witness for C4 at a concrete closing sub-channel and index 0. -/
theorem get_dlc_channel_id_closing_and_terminal_witness :
    (mkSubChannel (SubChannelState.Closing sampleClosing)).get_dlc_channel_id 0 =
      some (sampleClosing.signed_sub_channel.get_dlc_channel_id
        (generate_temporary_channel_id
          (mkSubChannel (SubChannelState.Closing sampleClosing)).channel_id
          (mkSubChannel (SubChannelState.Closing sampleClosing)).update_idx 0) 0) :=
  (get_dlc_channel_id_closing_and_terminal
    (mkSubChannel (SubChannelState.Closing sampleClosing)) 0).1 sampleClosing rfl

/-- C5: `generate_temporary_channel_id` is exactly the SHA-256 digest of
the channel id, followed by the update index as 8 big-endian bytes,
followed by the channel index as one byte, and its output is always 32
bytes.  Determinism and freedom from side effects are intrinsic: the
embedding is a pure function of its three arguments. -/
theorem generate_temporary_channel_id_sha256 (channel_id : ChannelId)
    (split_update_idx : Nat) (channel_index : Fin 256) :
    generate_temporary_channel_id channel_id split_update_idx channel_index =
      sha256 (channel_id ++ u64beBytes split_update_idx ++ [channel_index.val]) ∧
    (generate_temporary_channel_id channel_id split_update_idx channel_index).length
      = 32 :=
  ⟨rfl, sha256_length _⟩

/-- C6: the rollback snapshot built from channel details with a present
funding outpoint copies `channel_value_satoshis`, `balance_msat` (as
`value_to_self_msat`) and `funding_txo` exactly, and nothing else — the
structure has exactly these three fields. -/
theorem ln_rollback_info_from_channel_details (cd : ChannelDetails) (o : OutPoint)
    (h : cd.funding_txo = some o) :
    LnRollBackInfo.fromChannelDetails cd =
      some ⟨cd.channel_value_satoshis, cd.balance_msat, o⟩ := by
  simp [LnRollBackInfo.fromChannelDetails, h]

/-- Witness for C6 at concrete channel details. -/
theorem ln_rollback_info_from_channel_details_witness :
    LnRollBackInfo.fromChannelDetails sampleDetails =
      some ⟨sampleDetails.channel_value_satoshis, sampleDetails.balance_msat,
        sampleOutPoint⟩ :=
  ln_rollback_info_from_channel_details sampleDetails sampleOutPoint rfl

/-- C8: `force_close_channel` returns `ok` exactly when the underlying
channel-manager force-close succeeds, and maps a failure to a generic
`Error::InvalidParameters` wrapping the description of the underlying
cause; a failure is never swallowed into a success. -/
theorem force_close_channel_error_mapping (r : Except APIError Unit) :
    (r = Except.ok () → force_close_channel r = Except.ok ()) ∧
    (∀ e, r = Except.error e → force_close_channel r =
      Except.error (Error.InvalidParameters (describeApiError e))) ∧
    (force_close_channel r = Except.ok () → r = Except.ok ()) := by
  refine ⟨fun h => ?_, fun e h => ?_, fun h => ?_⟩
  · subst h; rfl
  · subst h; rfl
  · cases r with
    | ok u => cases u; rfl
    | error e => simp [force_close_channel, Except.mapError] at h

/-- Witness for C8 at a concrete failing underlying result. -/
theorem force_close_channel_error_mapping_witness :
    force_close_channel (Except.error ⟨("channel busy")⟩) =
      Except.error (Error.InvalidParameters (describeApiError ⟨("channel busy")⟩)) :=
  (force_close_channel_error_mapping (Except.error ⟨("channel busy")⟩)).2.1
    ⟨("channel busy")⟩ rfl

/-- C9: constructing `LnRollBackInfo` from channel details aborts (the
Rust `.expect`, embedded as `none`) precisely when `funding_txo` is
absent; with a present funding outpoint the construction is total. -/
theorem ln_rollback_aborts_iff_missing_funding_txo (cd : ChannelDetails) :
    LnRollBackInfo.fromChannelDetails cd = none ↔ cd.funding_txo = none := by
  cases h : cd.funding_txo <;> simp [LnRollBackInfo.fromChannelDetails, h]

/-- Witness for C9 at concrete channel details lacking a funding outpoint. -/
theorem ln_rollback_aborts_iff_missing_funding_txo_witness :
    LnRollBackInfo.fromChannelDetails sampleDetailsNoTxo = none :=
  (ln_rollback_aborts_iff_missing_funding_txo sampleDetailsNoTxo).mpr rfl

/-- C10: `get_channel_details` returns `none` exactly when no channel in
the list bears the queried id, and otherwise returns the first channel
whose id matches — so the returned details' id equals the queried id.
The embedding is a pure function, so no state is mutated. -/
theorem get_channel_details_first_match (channels : List ChannelDetails)
    (id : ChannelId) :
    (get_channel_details channels id = none ↔
      ∀ cd ∈ channels, cd.channel_id ≠ id) ∧
    (∀ cd, get_channel_details channels id = some cd →
      cd.channel_id = id ∧
      ∃ l1 l2, channels = l1 ++ cd :: l2 ∧ ∀ x ∈ l1, x.channel_id ≠ id) := by
  constructor
  · simp [get_channel_details, List.find?_eq_none]
  · intro cd h
    rw [get_channel_details, List.find?_eq_some] at h
    obtain ⟨hp, l1, l2, rfl, hall⟩ := h
    refine ⟨by simpa using hp, l1, l2, rfl, ?_⟩
    intro x hx
    simpa using hall x hx

/-- Witness for C10 on a concrete one-element channel list. -/
theorem get_channel_details_first_match_witness :
    sampleDetails.channel_id = sampleDetails.channel_id ∧
      ∃ l1 l2, [sampleDetails] = l1 ++ sampleDetails :: l2 ∧
        ∀ x ∈ l1, x.channel_id ≠ sampleDetails.channel_id :=
  (get_channel_details_first_match [sampleDetails] sampleDetails.channel_id).2
    sampleDetails rfl

end Dlc
